import Mathlib

/-!
Verification of the Security Radar screen-capture server
(src/server1.py, with the plain variant src/server.py where noted).

Shallow embedding conventions:
* Python floats (times, percentages, thresholds) are modelled as rationals.
* Python ints are modelled as Int (or Nat where the source value is a count).
* `collections.deque(maxlen=n)` is a list together with the bounded append
  `dequeAppend`.
* The impure inputs of the code (the captured frame, `time.time()`, the
  outcome of a socket send) are passed as explicit arguments.
-/

namespace SecurityRadar

/-! ### Configuration constants (class ServerConfig, src/server1.py lines 21-45) -/

/-- ServerConfig.MOTION_THRESHOLD = 5.0 (src/server1.py line 39). -/
def MOTION_THRESHOLD : ℚ := 5

/-- ServerConfig.MOTION_SENSITIVITY = 3 (src/server1.py line 40). -/
def MOTION_SENSITIVITY : Int := 3

/-- ServerConfig.ALERT_COOLDOWN = 3 (src/server1.py line 41). -/
def ALERT_COOLDOWN : ℚ := 3

/-- ServerConfig.DEFAULT_FPS = 10 (src/server1.py line 28). -/
def DEFAULT_FPS : Int := 10

/-- ServerConfig.DEFAULT_QUALITY = 60 (src/server1.py line 29). -/
def DEFAULT_QUALITY : Int := 60

/-- ServerConfig.DEFAULT_FPS = 60 of the plain variant (src/server.py line 25). -/
def serverPy_DEFAULT_FPS : Int := 60

/-- Initial capture FPS of the plain variant: `self.capture_fps =
ServerConfig.DEFAULT_FPS` (src/server.py line 54). -/
def serverPyInitialFps : Int := serverPy_DEFAULT_FPS

/-- Bounded append of a `deque(maxlen=maxlen)`: append on the right and drop
from the left whenever the capacity is exceeded. -/
def dequeAppend (maxlen : Nat) (h : List Bool) (b : Bool) : List Bool :=
  let h2 := h ++ [b]
  if maxlen < h2.length then h2.drop (h2.length - maxlen) else h2

/-- The sensitivity-adjusted motion threshold,
`ServerConfig.MOTION_THRESHOLD * (11 - sensitivity) / 10`
(src/server1.py lines 71 and 118, the same expression at both places). -/
def effectiveThreshold (s : Int) : ℚ := MOTION_THRESHOLD * (11 - (s : ℚ)) / 10

/-! ### MonitoringZone (src/server1.py lines 49-82) -/

/-- State of class MonitoringZone (src/server1.py lines 52-63):
`motion_history` is a `deque(maxlen=10)`. -/
structure MonitoringZone where
  zone_id : Int
  name : String
  x : Int
  y : Int
  width : Int
  height : Int
  sensitivity : Int
  enabled : Bool
  motion_detected : Bool
  last_alert_time : ℚ
  motion_history : List Bool
deriving DecidableEq

/-- MonitoringZone.__init__ (src/server1.py lines 52-63): enabled, no motion,
last_alert_time 0, empty history. -/
def mkZone (zone_id : Int) (name : String) (x y width height sensitivity : Int) :
    MonitoringZone :=
  ⟨zone_id, name, x, y, width, height, sensitivity, true, false, 0, []⟩

/-- MonitoringZone.check_motion (src/server1.py lines 69-74): compare the global
percentage against the zone-local effective threshold, record the verdict in the
flag and the bounded history, and return it. -/
def checkMotion (z : MonitoringZone) (diff_percentage : ℚ) : MonitoringZone × Bool :=
  let motion := decide (diff_percentage > effectiveThreshold z.sensitivity)
  ({ z with motion_detected := motion,
            motion_history := dequeAppend 10 z.motion_history motion }, motion)

/-- MonitoringZone.should_alert (src/server1.py lines 76-82); `current_time` is
the value of `time.time()` at the call. -/
def shouldAlert (current_time : ℚ) (z : MonitoringZone) : Bool × MonitoringZone :=
  if current_time - z.last_alert_time > ALERT_COOLDOWN then
    (true, { z with last_alert_time := current_time })
  else
    (false, z)

/-! ### MotionDetector (src/server1.py lines 86-139) -/

/-- A captured frame: the flat list of RGB pixels of the (resized) image. -/
def Frame := List (Nat × Nat × Nat)

/-- PIL grayscale conversion `convert('L')` (ITU-R 601-2 luma,
L = (R*299 + G*587 + B*114) / 1000, truncated). -/
def toGray (f : Frame) : List Nat :=
  f.map (fun p => (p.1 * 299 + p.2.1 * 587 + p.2.2 * 114) / 1000)

/-- Per-pixel absolute difference, `ImageChops.difference`. -/
def absDiff (a b : Nat) : Nat := max a b - min a b

/-- Mean absolute difference of two equally long grayscale buffers:
`ImageStat.Stat(diff).mean` for the single 'L' band. -/
def meanAbsDiff (a b : List Nat) : ℚ :=
  ((List.zipWith absDiff a b).sum : ℚ) / (a.length : ℚ)

/-- State of class MotionDetector (src/server1.py lines 89-95):
`detection_history` is a `deque(maxlen=30)`. -/
structure MotionDetector where
  previous_frame : Option (List Nat)
  enabled : Bool
  motion_detected : Bool
  motion_percentage : ℚ
  sensitivity : Int
  detection_history : List Bool
deriving DecidableEq

/-- MotionDetector.__init__ (src/server1.py lines 89-95). -/
def initDetector : MotionDetector :=
  ⟨none, true, false, 0, MOTION_SENSITIVITY, []⟩

/-- MotionDetector.detect_motion (src/server1.py lines 97-133).
Disabled detectors report no motion; a cold start stores the frame and reports
no motion; otherwise `diff_percentage = sum(stat.mean)/len(stat.mean)/255*100`
for the single grayscale band, compared against the effective threshold.
The guard `current_gray.length = prev.length ∧ current_gray.length ≠ 0` models
the `except` branch of lines 131-133: PIL raises on size-mismatched or
zero-size images before any state is mutated, and the handler returns
`(False, 0.0)` leaving the detector unchanged. -/
def detectMotion (d : MotionDetector) (f : Frame) : MotionDetector × Bool × ℚ :=
  if d.enabled = false then (d, false, 0)
  else
    let current_gray := toGray f
    match d.previous_frame with
    | none => ({ d with previous_frame := some current_gray }, false, 0)
    | some prev =>
      if current_gray.length = prev.length ∧ current_gray.length ≠ 0 then
        let diff_percentage := meanAbsDiff current_gray prev / 255 * 100
        let motion := decide (diff_percentage > effectiveThreshold d.sensitivity)
        ({ d with previous_frame := some current_gray,
                  motion_detected := motion,
                  motion_percentage := diff_percentage,
                  detection_history := dequeAppend 30 d.detection_history motion },
         motion, diff_percentage)
      else (d, false, 0)

/-! ### Threat analytics (src/server1.py lines 468-487) -/

/-- Rule (a) of the analytics tick (src/server1.py lines 475-476): decay the
threat level when no motion is currently flagged. -/
def decayRule (motion_detected : Bool) (level : Int) : Int :=
  if motion_detected = false ∧ level > 0 then max 0 (level - 1) else level

/-- The fraction of true entries of the detection history
(src/server1.py lines 479-480); 0 for an empty history. -/
def motionRate (history : List Bool) : ℚ :=
  if history.length ≠ 0 then
    ((history.filter id).length : ℚ) / (history.length : ℚ)
  else 0

/-- Rule (b) of the analytics tick (src/server1.py lines 483-484): escalate,
capped at 3, when the history is more than half true. -/
def escalateRule (history : List Bool) (level : Int) : Int :=
  if motionRate history > 1 / 2 then min 3 (level + 1) else level

/-- One iteration of SecurityRadarServer._analytics_loop
(src/server1.py lines 474-484), as a function of the detector's current
motion flag, its detection history and the current threat level. -/
def analyticsStep (motion_detected : Bool) (history : List Bool) (threat_level : Int) : Int :=
  let level1 :=
    if motion_detected = false ∧ threat_level > 0 then max 0 (threat_level - 1)
    else threat_level
  let recent_motion : Nat := (history.filter id).length
  let motion_rate : ℚ :=
    if history.length ≠ 0 then (recent_motion : ℚ) / (history.length : ℚ) else 0
  if motion_rate > 1 / 2 then min 3 (level1 + 1) else level1

/-! ### Claim C3: analytics step -/

/-- Claim C3: each analytics step keeps the threat level in {0,1,2,3}; rule (a)
decrements by exactly one (never below 0) when no motion is flagged and the
level is positive; rule (b) increments by one capped at 3 when the history is
more than half true; decay is applied before escalation and both rules may fire
in the same step. -/
theorem analytics_threat_level_rules (m : Bool) (h : List Bool) (l : Int)
    (h0 : 0 ≤ l) (h3 : l ≤ 3) :
    analyticsStep m h l = escalateRule h (decayRule m l) ∧
    0 ≤ analyticsStep m h l ∧ analyticsStep m h l ≤ 3 ∧
    (m = false → 0 < l → decayRule m l = l - 1) ∧
    (motionRate h > 1 / 2 → analyticsStep m h l = min 3 (decayRule m l + 1)) ∧
    (¬ motionRate h > 1 / 2 → analyticsStep m h l = decayRule m l) := by
  refine ⟨rfl, ?_, ?_, ?_, ?_, ?_⟩
  · show 0 ≤ escalateRule h (decayRule m l)
    unfold escalateRule decayRule
    split <;> split <;> omega
  · show escalateRule h (decayRule m l) ≤ 3
    unfold escalateRule decayRule
    split <;> split <;> omega
  · intro hm hl
    subst hm
    unfold decayRule
    rw [if_pos ⟨rfl, hl⟩]
    omega
  · intro hr
    show escalateRule h (decayRule m l) = min 3 (decayRule m l + 1)
    unfold escalateRule
    rw [if_pos hr]
  · intro hr
    show escalateRule h (decayRule m l) = decayRule m l
    unfold escalateRule
    rw [if_neg hr]

/-- Witness for C3 at a concrete state: no current motion, a history that is
more than half true, level 2 — both rules fire in the same step. -/
theorem analytics_threat_level_rules_witness :
    ((0:Int) ≤ 2 ∧ (2:Int) ≤ 3) ∧
    (analyticsStep false [true, true, true, false] 2 =
        escalateRule [true, true, true, false] (decayRule false 2) ∧
      0 ≤ analyticsStep false [true, true, true, false] 2 ∧
      analyticsStep false [true, true, true, false] 2 ≤ 3 ∧
      (false = false → 0 < (2:Int) → decayRule false 2 = 2 - 1) ∧
      (motionRate [true, true, true, false] > 1 / 2 →
        analyticsStep false [true, true, true, false] 2 =
          min 3 (decayRule false 2 + 1)) ∧
      (¬ motionRate [true, true, true, false] > 1 / 2 →
        analyticsStep false [true, true, true, false] 2 =
          decayRule false 2)) :=
  ⟨by norm_num,
   analytics_threat_level_rules false [true, true, true, false] 2
     (by norm_num) (by norm_num)⟩

/-! ### Claim C7: threshold formula and antitonicity -/

/-- Claim C7: the effective threshold is the formula
`MOTION_THRESHOLD * (11 - sensitivity) / 10` (used verbatim by both the global
detector and every zone), and it is antitone in the sensitivity knob. -/
theorem effective_threshold_antitone (s1 s2 : Int)
    (h1 : 1 ≤ s1) (h12 : s1 < s2) (h2 : s2 ≤ 10) :
    effectiveThreshold s1 = MOTION_THRESHOLD * (11 - (s1 : ℚ)) / 10 ∧
    effectiveThreshold s2 ≤ effectiveThreshold s1 := by
  refine ⟨rfl, ?_⟩
  unfold effectiveThreshold MOTION_THRESHOLD
  have hc : (s1 : ℚ) ≤ (s2 : ℚ) := by exact_mod_cast h12.le
  linarith

/-- Witness for C7 at sensitivities 3 and 7. -/
theorem effective_threshold_antitone_witness :
    ((1:Int) ≤ 3 ∧ (3:Int) < 7 ∧ (7:Int) ≤ 10) ∧
    (effectiveThreshold 3 = MOTION_THRESHOLD * (11 - ((3:Int) : ℚ)) / 10 ∧
      effectiveThreshold 7 ≤ effectiveThreshold 3) :=
  ⟨by norm_num, effective_threshold_antitone 3 7 (by norm_num) (by norm_num) (by norm_num)⟩

/-! ### Claim C9: zone alert de-bounce -/

/-- Claim C9: should_alert returns true (and then resets the cooldown timer to
the current time) only if at least ALERT_COOLDOWN seconds have elapsed since the
zone's last alert; two calls within ALERT_COOLDOWN seconds of each other yield
at most one true result. -/
theorem zone_alert_debounce (t1 t2 : ℚ) (z : MonitoringZone)
    (hle : t1 ≤ t2) (hwin : t2 - t1 ≤ ALERT_COOLDOWN) :
    ((shouldAlert t1 z).1 = true →
        ALERT_COOLDOWN ≤ t1 - z.last_alert_time ∧
        (shouldAlert t1 z).2.last_alert_time = t1) ∧
    ((shouldAlert t1 z).1 = false → (shouldAlert t1 z).2 = z) ∧
    ¬((shouldAlert t1 z).1 = true ∧
      (shouldAlert t2 (shouldAlert t1 z).2).1 = true) := by
  unfold shouldAlert
  by_cases hc : t1 - z.last_alert_time > ALERT_COOLDOWN
  · simp only [if_pos hc]
    refine ⟨fun _ => ⟨hc.le, by trivial⟩, fun hfalse => by simp at hfalse, ?_⟩
    rintro ⟨-, h2⟩
    have hn : ¬ (t2 - ({ z with last_alert_time := t1 } : MonitoringZone).last_alert_time
        > ALERT_COOLDOWN) := by
      show ¬ (t2 - t1 > ALERT_COOLDOWN)
      exact not_lt.mpr hwin
    rw [if_neg hn] at h2
    simp at h2
  · simp only [if_neg hc]
    exact ⟨fun htrue => by simp at htrue, fun _ => by trivial, fun hp => by simp at hp⟩

/-- Witness for C9: with the last alert at time 0, calls at times 10 and 12
(2 seconds apart, within the 3-second cooldown) yield at most one true. -/
theorem zone_alert_debounce_witness :
    ((10:ℚ) ≤ 12 ∧ (12:ℚ) - 10 ≤ ALERT_COOLDOWN) ∧
    ¬((shouldAlert 10 (mkZone 1 ("Entry Point") 0 0 640 360 5)).1 = true ∧
      (shouldAlert 12 (shouldAlert 10 (mkZone 1 ("Entry Point") 0 0 640 360 5)).2).1
        = true) :=
  ⟨⟨by norm_num, by norm_num [ALERT_COOLDOWN]⟩,
   (zone_alert_debounce 10 12 (mkZone 1 ("Entry Point") 0 0 640 360 5)
      (by norm_num) (by norm_num [ALERT_COOLDOWN])).2.2⟩

/-! ### Claim C10: should_alert depends only on the clock and the timestamp -/

/-- Claim C10: the result of should_alert depends only on the current time and
last_alert_time — two zone states agreeing on last_alert_time (regardless of
motion_detected or enabled) get identical results; it returns true and updates
the timestamp exactly when more than ALERT_COOLDOWN seconds have elapsed. -/
theorem should_alert_time_only (t : ℚ) (z1 z2 : MonitoringZone)
    (h : z1.last_alert_time = z2.last_alert_time) :
    (shouldAlert t z1).1 = (shouldAlert t z2).1 ∧
    (ALERT_COOLDOWN < t - z1.last_alert_time →
        (shouldAlert t z1).1 = true ∧ (shouldAlert t z1).2.last_alert_time = t) ∧
    (¬ ALERT_COOLDOWN < t - z1.last_alert_time → (shouldAlert t z1).1 = false) := by
  unfold shouldAlert
  rw [h]
  by_cases hc : ALERT_COOLDOWN < t - z2.last_alert_time
  · simp only [if_pos hc]
    exact ⟨by trivial, fun _ => ⟨by trivial, by trivial⟩, fun hn => absurd hc hn⟩
  · simp only [if_neg hc]
    exact ⟨by trivial, fun hp => absurd hp hc, fun _ => by trivial⟩

/-- Witness for C10: two zones sharing last_alert_time = 0 but differing in
enabled and motion_detected get the same verdict at time 5. -/
theorem should_alert_time_only_witness :
    ((mkZone 1 ("Entry Point") 0 0 640 360 5).last_alert_time =
      ({ mkZone 2 ("Parking") 640 360 640 360 3 with
          enabled := false, motion_detected := true } : MonitoringZone).last_alert_time) ∧
    (shouldAlert 5 (mkZone 1 ("Entry Point") 0 0 640 360 5)).1 =
      (shouldAlert 5 ({ mkZone 2 ("Parking") 640 360 640 360 3 with
          enabled := false, motion_detected := true } : MonitoringZone)).1 :=
  ⟨rfl,
   (should_alert_time_only 5 (mkZone 1 ("Entry Point") 0 0 640 360 5)
      ({ mkZone 2 ("Parking") 640 360 640 360 3 with
          enabled := false, motion_detected := true } : MonitoringZone) rfl).1⟩

/-! ### Claim C6: identical frames produce no motion -/

lemma zipWith_absDiff_self (g : List Nat) : (List.zipWith absDiff g g).sum = 0 := by
  induction g with
  | nil => rfl
  | cons a t ih => simp [List.zipWith_cons_cons, absDiff, ih]

lemma meanAbsDiff_self (g : List Nat) : meanAbsDiff g g = 0 := by
  unfold meanAbsDiff
  rw [zipWith_absDiff_self]
  simp

lemma effectiveThreshold_pos {s : Int} (hs : s ≤ 10) : 0 < effectiveThreshold s := by
  unfold effectiveThreshold MOTION_THRESHOLD
  have hc : (s : ℚ) ≤ 10 := by exact_mod_cast hs
  have h1 : (0:ℚ) < 11 - (s : ℚ) := by linarith
  positivity

lemma detectMotion_no_change (d : MotionDetector) (f : Frame)
    (he : d.enabled = true) (hs : d.sensitivity ≤ 10)
    (hp : d.previous_frame = some (toGray f)) :
    (detectMotion d f).2.1 = false ∧ (detectMotion d f).2.2 = 0 := by
  unfold detectMotion
  rw [he, hp]
  simp only [Bool.true_eq_false, if_false]
  by_cases hz : (toGray f).length = 0
  · rw [if_neg (by simp [hz])]
    exact ⟨by trivial, by trivial⟩
  · rw [if_pos ⟨by trivial, hz⟩]
    have hm : meanAbsDiff (toGray f) (toGray f) / 255 * 100 = 0 := by
      rw [meanAbsDiff_self]
      norm_num
    refine ⟨?_, by simpa using hm⟩
    show decide (meanAbsDiff (toGray f) (toGray f) / 255 * 100
        > effectiveThreshold d.sensitivity) = false
    rw [hm]
    have hpos := effectiveThreshold_pos hs
    simp only [decide_eq_false_iff_not]
    intro hlt
    linarith

lemma detectMotion_state (d : MotionDetector) (f : Frame) (he : d.enabled = true) :
    (detectMotion d f).1.enabled = true ∧
    (detectMotion d f).1.sensitivity = d.sensitivity ∧
    ((detectMotion d f).1.previous_frame = some (toGray f) ∨
      ((detectMotion d f).1 = d ∧ (detectMotion d f).2.1 = false ∧
        (detectMotion d f).2.2 = 0)) := by
  obtain ⟨prev, en, md, mp, sens, hist⟩ := d
  simp only at he
  subst he
  cases prev with
  | none =>
    unfold detectMotion
    simp
  | some g =>
    unfold detectMotion
    simp only [Bool.true_eq_false, if_false]
    by_cases hg : (toGray f).length = g.length ∧ (toGray f).length ≠ 0
    · rw [if_pos hg]
      simp
    · rw [if_neg hg]
      simp

/-- Claim C6: for bit-identical frames, detecting the second immediately after
the first on an enabled detector (any sensitivity up to 10) reports
motion_detected = false and a motion percentage of exactly 0. -/
theorem identical_frames_no_motion (d : MotionDetector) (f : Frame)
    (he : d.enabled = true) (hs1 : 1 ≤ d.sensitivity) (hs2 : d.sensitivity ≤ 10) :
    (detectMotion (detectMotion d f).1 f).2.1 = false ∧
    (detectMotion (detectMotion d f).1 f).2.2 = 0 := by
  obtain ⟨he1, hsens1, hcase⟩ := detectMotion_state d f he
  rcases hcase with hp | ⟨heq, hb, hq⟩
  · exact detectMotion_no_change _ f he1 (by rw [hsens1]; exact hs2) hp
  · rw [heq]
    exact ⟨hb, hq⟩

/-- Witness for C6 on a concrete one-pixel frame and the default detector. -/
theorem identical_frames_no_motion_witness :
    (initDetector.enabled = true ∧ 1 ≤ initDetector.sensitivity ∧
      initDetector.sensitivity ≤ 10) ∧
    ((detectMotion (detectMotion initDetector [(7, 7, 7)]).1 [(7, 7, 7)]).2.1 = false ∧
     (detectMotion (detectMotion initDetector [(7, 7, 7)]).1 [(7, 7, 7)]).2.2 = 0) :=
  ⟨by decide,
   identical_frames_no_motion initDetector [(7, 7, 7)] (by decide) (by decide) (by decide)⟩

/-! ### Capture loop (src/server1.py lines 365-446) -/

/-- SecurityRadarServer._process_motion_event (src/server1.py lines 429-437):
the threat level is set directly from the instantaneous intensity. -/
def processMotionEvent (motion_percentage : ℚ) : Int :=
  if motion_percentage > 20 then 3
  else if motion_percentage > 10 then 2
  else 1

/-- SecurityRadarServer._get_active_zone (src/server1.py lines 441-446): the
name of the first zone, in the registry's (insertion-ordered) iteration order,
whose motion_detected flag is set, else the sentinel. -/
def getActiveZone (zones : List MonitoringZone) : String :=
  match zones.find? (fun z => z.motion_detected) with
  | some z => z.name
  | none => "Unknown"

/-- Python `round(x, 2)` used for the packet's motion_percentage
(src/server1.py line 410); ties are modelled as rounding up (Python rounds
half-to-even on floats; no claim depends on a tie). -/
def round2 (q : ℚ) : ℚ := ((⌊q * 100 + 1 / 2⌋ : Int) : ℚ) / 100

/-- The slice of the server state read and written by one capture tick
(src/server1.py lines 365-427): the motion detector, the zone registry
(`self.zones`, insertion-ordered), the threat level, the server-wide motion
switch and the motion-event counter. -/
structure CaptureState where
  detector : MotionDetector
  zones : List MonitoringZone
  threat_level : Int
  motion_enabled : Bool
  motion_events : Nat
deriving DecidableEq

/-- The security fields of the broadcast packet built at src/server1.py lines
403-413 (the image payload fields type/timestamp/width/height/data carry the
encoded frame and are not consulted by any claim about this packet). -/
structure PacketMeta where
  motion_detected : Bool
  motion_percentage : ℚ
  threat_level : Int
  zone : String
deriving DecidableEq

/-- One iteration of SecurityRadarServer._capture_loop (src/server1.py lines
369-423) after the frame has been captured: run motion detection when enabled,
on a motion event bump the counter and set the threat level, and build the
packet. The zone registry is read by _get_active_zone but never written:
no call of MonitoringZone.check_motion occurs anywhere in the repository. -/
def captureTick (st : CaptureState) (frame : Frame) : CaptureState × PacketMeta :=
  let r := if st.motion_enabled then detectMotion st.detector frame
           else (st.detector, false, 0)
  let detector := r.1
  let motion_detected := r.2.1
  let motion_percentage := r.2.2
  let threat_level :=
    if motion_detected then processMotionEvent motion_percentage else st.threat_level
  let motion_events :=
    if motion_detected then st.motion_events + 1 else st.motion_events
  let st2 : CaptureState :=
    { st with detector := detector, threat_level := threat_level,
              motion_events := motion_events }
  (st2,
   { motion_detected := motion_detected,
     motion_percentage := round2 motion_percentage,
     threat_level := threat_level,
     zone := getActiveZone st2.zones })

/-- SecurityRadarServer._initialize_default_zones (src/server1.py lines
182-194), in dict insertion order 1, 2, 3, 4. -/
def defaultZones : List MonitoringZone :=
  [mkZone 1 ("Entry Point") 0 0 640 360 5,
   mkZone 2 ("Perimeter") 640 0 640 360 4,
   mkZone 3 ("Restricted Area") 0 360 640 360 7,
   mkZone 4 ("Parking") 640 360 640 360 3]

/-- SecurityRadarServer.__init__ (src/server1.py lines 147-180), restricted to
the capture-loop slice. -/
def initCaptureState : CaptureState :=
  { detector := initDetector, zones := defaultZones, threat_level := 0,
    motion_enabled := true, motion_events := 0 }

/-- An all-black one-pixel frame followed by an all-white one: the grayscale
difference is 255 on every pixel, a 100% motion percentage. -/
def frameBlack : Frame := [(0, 0, 0)]

/-- The second frame of the C1 counterexample run. -/
def frameWhite : Frame := [(255, 255, 255)]

/-! ### Claim C1 -/

/-- Counterexample to claim C1: starting from the freshly initialized server,
a capture tick whose global motion percentage is 100 — strictly above the
effective threshold of every (enabled) default zone — leaves every zone's
motion_detected flag false and its motion history empty, and broadcasts
zone = "Unknown". Per the claim, each enabled zone's flag should have been set
and the packet should have named the first zone. -/
theorem zones_not_updated_on_tick :
    ((captureTick (captureTick initCaptureState frameBlack).1 frameWhite).2.motion_detected
        = true) ∧
    ((captureTick (captureTick initCaptureState frameBlack).1 frameWhite).2.motion_percentage
        = 100) ∧
    (∀ z ∈ (captureTick (captureTick initCaptureState frameBlack).1 frameWhite).1.zones,
        z.enabled = true ∧ effectiveThreshold z.sensitivity < 100 ∧
        z.motion_detected = false ∧ z.motion_history = []) ∧
    ((captureTick (captureTick initCaptureState frameBlack).1 frameWhite).2.zone
        = "Unknown") := by
  have hdp : meanAbsDiff [255] [0] / 255 * 100 = 100 := by
    norm_num [meanAbsDiff, absDiff]
  refine ⟨?_, ?_, ?_, rfl⟩
  · show decide (meanAbsDiff [255] [0] / 255 * 100 > effectiveThreshold 3) = true
    refine decide_eq_true ?_
    rw [hdp]
    norm_num [effectiveThreshold, MOTION_THRESHOLD]
  · show round2 (meanAbsDiff [255] [0] / 255 * 100) = 100
    rw [hdp]
    norm_num [round2]
  · show ∀ z ∈ defaultZones, _
    intro z hz
    simp only [defaultZones, List.mem_cons, List.not_mem_nil, or_false] at hz
    rcases hz with rfl | rfl | rfl | rfl <;>
      exact ⟨rfl, by norm_num [mkZone, effectiveThreshold, MOTION_THRESHOLD], rfl, rfl⟩

lemma getActiveZone_of_no_motion (zones : List MonitoringZone)
    (h : ∀ z ∈ zones, z.motion_detected = false) :
    getActiveZone zones = "Unknown" := by
  unfold getActiveZone
  have hf : zones.find? (fun z => z.motion_detected) = none := by
    rw [List.find?_eq_none]
    intro z hz
    simp [h z hz]
  rw [hf]

/-- Claim C1 as amended: a capture tick never updates any zone's
motion_detected flag or motion history (the zone registry is passed through
unchanged — MonitoringZone.check_motion is never called); the packet's 'zone'
field is _get_active_zone of the unchanged registry, i.e. the name of the first
zone in iteration order whose motion_detected flag is set, or "Unknown" if
none; in particular, with every flag still false as initialized, it is
"Unknown". -/
theorem capture_tick_zone_field (st : CaptureState) (frame : Frame)
    (h : ∀ z ∈ st.zones, z.motion_detected = false) :
    (captureTick st frame).1.zones = st.zones ∧
    (captureTick st frame).2.zone = getActiveZone st.zones ∧
    (captureTick st frame).2.zone = "Unknown" := by
  refine ⟨rfl, rfl, ?_⟩
  show getActiveZone st.zones = "Unknown"
  exact getActiveZone_of_no_motion st.zones h

/-- Witness for the amended C1 on the initial state and a concrete frame. -/
theorem capture_tick_zone_field_witness :
    (∀ z ∈ initCaptureState.zones, z.motion_detected = false) ∧
    ((captureTick initCaptureState frameBlack).1.zones = initCaptureState.zones ∧
     (captureTick initCaptureState frameBlack).2.zone
        = getActiveZone initCaptureState.zones ∧
     (captureTick initCaptureState frameBlack).2.zone = "Unknown") :=
  ⟨by decide, capture_tick_zone_field initCaptureState frameBlack (by decide)⟩

/-! ### Command processor (src/server1.py lines 308-351) -/

/-- Python `str.startswith`, on the character lists of the strings. -/
def cmdStartsWith (command p : String) : Bool := p.data.isPrefixOf command.data

/-- Python `str.split(':')`: split on every colon, keeping empty segments. -/
def splitOnColon : List Char → List (List Char)
  | [] => [[]]
  | ':' :: rest => [] :: splitOnColon rest
  | c :: rest =>
    match splitOnColon rest with
    | [] => [[c]]
    | g :: gs => (c :: g) :: gs

/-- `command.split(':')[1]`, the argument of a `VERB:arg` command; every call
site has checked `startswith`, so index 1 exists. -/
def argOf (command : String) : List Char :=
  (splitOnColon command.data).getD 1 []

/-- Digit run of Python `int(str)`: digits with single separating underscores. -/
def pyDigits : Nat → List Char → Option Nat
  | acc, [] => some acc
  | acc, '_' :: c :: rest =>
    if h : ('0' ≤ c ∧ c ≤ '9') then pyDigits (acc * 10 + (c.toNat - 48)) rest
    else none
  | acc, c :: rest =>
    if h : ('0' ≤ c ∧ c ≤ '9') then pyDigits (acc * 10 + (c.toNat - 48)) rest
    else none

/-- Python `int(str)` on a character list: optional surrounding whitespace,
optional sign, then a nonempty digit run (underscores allowed between digits);
`none` models the `ValueError` swallowed by the handler at src/server1.py
lines 350-351. -/
def pyIntL (s : List Char) : Option Int :=
  let cs := ((s.dropWhile Char.isWhitespace).reverse.dropWhile Char.isWhitespace).reverse
  match cs with
  | '-' :: c :: rest =>
    if '0' ≤ c ∧ c ≤ '9' then (pyDigits (c.toNat - 48) rest).map (fun n => -(n : Int))
    else none
  | '+' :: c :: rest =>
    if '0' ≤ c ∧ c ≤ '9' then (pyDigits (c.toNat - 48) rest).map (fun n => (n : Int))
    else none
  | c :: rest =>
    if '0' ≤ c ∧ c ≤ '9' then (pyDigits (c.toNat - 48) rest).map (fun n => (n : Int))
    else none
  | [] => none

/-- The server-wide fields mutated by _process_command
(src/server1.py lines 308-351): capture_fps, quality,
motion_detector.sensitivity and alerts_sent. -/
structure CommandState where
  capture_fps : Int
  quality : Int
  sensitivity : Int
  alerts_sent : Nat
deriving DecidableEq

/-- The per-client feature flags of the client_info dict
(src/server1.py lines 260-266). -/
structure ClientInfo where
  motion_enabled : Bool
  alerts_enabled : Bool
deriving DecidableEq

/-- The replies _process_command can send on the client socket: b'PONG'
(line 312), f'FPS_SET:{fps}' (line 317), f'QUALITY_SET:{quality}' (line 323)
and the statistics JSON snapshot (lines 346-348, carried as the state it is
derived from). -/
inductive Reply where
  | pong
  | fpsSet (n : Int)
  | qualitySet (n : Int)
  | statsJson (st : CommandState)
deriving DecidableEq

/-- The initial command-relevant state from SecurityRadarServer.__init__
(src/server1.py lines 161-176). -/
def initCommandState : CommandState :=
  { capture_fps := DEFAULT_FPS, quality := DEFAULT_QUALITY,
    sensitivity := MOTION_SENSITIVITY, alerts_sent := 0 }

/-- SecurityRadarServer._process_command (src/server1.py lines 308-351):
the elif chain in source order; `int()` failures (pyIntL = none) reach the
`except` handler, which only logs — no reply, no mutation. A command matching
no branch falls through the chain with no effect. -/
def processCommand (st : CommandState) (ci : ClientInfo) (command : String) :
    CommandState × ClientInfo × Option Reply :=
  if command = "PING" then (st, ci, some Reply.pong)
  else if cmdStartsWith command ("SET_FPS:") then
    match pyIntL (argOf command) with
    | some fps =>
      let fps2 := max 1 (min 30 fps)
      ({ st with capture_fps := fps2 }, ci, some (Reply.fpsSet fps2))
    | none => (st, ci, none)
  else if cmdStartsWith command ("SET_QUALITY:") then
    match pyIntL (argOf command) with
    | some quality =>
      let q2 := max 10 (min 100 quality)
      ({ st with quality := q2 }, ci, some (Reply.qualitySet q2))
    | none => (st, ci, none)
  else if cmdStartsWith command ("ENABLE_MOTION:") then
    let enabled := (argOf command).map Char.toLower == ("true").data
    (st, { ci with motion_enabled := enabled }, none)
  else if cmdStartsWith command ("ENABLE_ALERTS:") then
    let enabled := (argOf command).map Char.toLower == ("true").data
    (st, { ci with alerts_enabled := enabled }, none)
  else if command = "MANUAL_ALERT" then
    ({ st with alerts_sent := st.alerts_sent + 1 }, ci, none)
  else if cmdStartsWith command ("SET_SENSITIVITY:") then
    match pyIntL (argOf command) with
    | some sensitivity =>
      ({ st with sensitivity := max 1 (min 10 sensitivity) }, ci, none)
    | none => (st, ci, none)
  else if command = "GET_STATS" then (st, ci, some (Reply.statsJson st))
  else (st, ci, none)

/-- The operator `fps` console command (src/server1.py lines 607-613, same
clamp at src/server.py lines 327-332), on a successfully parsed integer. -/
def cliSetFps (st : CommandState) (fps : Int) : CommandState :=
  { st with capture_fps := max 1 (min 30 fps) }

/-! ### Claim C2: FPS range -/

/-- Counterexample to claim C2 as stated: the capture FPS is not in [1, 30] at
initialization in the cited ServerConfig of src/server.py, whose DEFAULT_FPS
is 60 — the initial `self.capture_fps` of that variant is 60 > 30. -/
theorem initial_fps_out_of_range :
    ¬ (1 ≤ serverPyInitialFps ∧ serverPyInitialFps ≤ 30) := by
  decide

/-- Claim C2 as amended: in the security-radar server the FPS starts in [1, 30]
(DEFAULT_FPS = 10), every mutation by a client command leaves it unchanged or
clamped into [1, 30], the operator fps command clamps into [1, 30], and
SET_FPS:100 stores 30 and replies FPS_SET:30; only the plain variant
src/server.py initializes it out of range (to 60). -/
theorem capture_fps_clamped :
    (1 ≤ initCommandState.capture_fps ∧ initCommandState.capture_fps ≤ 30) ∧
    (∀ st ci cmd, (processCommand st ci cmd).1.capture_fps = st.capture_fps ∨
        (1 ≤ (processCommand st ci cmd).1.capture_fps ∧
          (processCommand st ci cmd).1.capture_fps ≤ 30)) ∧
    (∀ st fps, 1 ≤ (cliSetFps st fps).capture_fps ∧
        (cliSetFps st fps).capture_fps ≤ 30) ∧
    (∀ st ci, processCommand st ci ("SET_FPS:100") =
        ({ st with capture_fps := 30 }, ci, some (Reply.fpsSet 30))) := by
  refine ⟨by decide, ?_, ?_, fun st ci => rfl⟩
  · intro st ci cmd
    unfold processCommand
    repeat' split
    all_goals dsimp only
    all_goals first
      | exact Or.inl rfl
      | exact Or.inr (by constructor <;> omega)
  · intro st fps
    unfold cliSetFps
    dsimp only
    constructor <;> omega

/-! ### Claim C8: malformed commands are ignored atomically -/

/-- The verbs recognized by the elif chain of _process_command. -/
def knownVerb (command : String) : Bool :=
  command == "PING" || cmdStartsWith command ("SET_FPS:") ||
  cmdStartsWith command ("SET_QUALITY:") || cmdStartsWith command ("ENABLE_MOTION:") ||
  cmdStartsWith command ("ENABLE_ALERTS:") || command == "MANUAL_ALERT" ||
  cmdStartsWith command ("SET_SENSITIVITY:") || command == "GET_STATS"

/-- A recognized integer-argument verb whose argument fails `int()`. -/
def intArgMalformed (command : String) : Bool :=
  (cmdStartsWith command ("SET_FPS:") || cmdStartsWith command ("SET_QUALITY:") ||
   cmdStartsWith command ("SET_SENSITIVITY:")) && (pyIntL (argOf command)).isNone

lemma startsWith_disjoint {command p q : String}
    (hp : cmdStartsWith command p = true)
    (hlen : q.data.length ≤ p.data.length)
    (hq : q.data.isPrefixOf p.data = false) :
    cmdStartsWith command q = false := by
  unfold cmdStartsWith at hp ⊢
  rw [List.isPrefixOf_iff_prefix] at hp
  rw [Bool.eq_false_iff]
  intro hcontra
  rw [List.isPrefixOf_iff_prefix] at hcontra
  have hqp := List.prefix_of_prefix_length_le hcontra hp hlen
  rw [← List.isPrefixOf_iff_prefix] at hqp
  rw [hq] at hqp
  exact absurd hqp (by simp)

/-- Claim C8: a command with an unrecognized verb, or a recognized
integer-argument verb with a non-integer argument, produces no reply and leaves
both the server-side and the per-client state unchanged. -/
theorem malformed_command_ignored (st : CommandState) (ci : ClientInfo)
    (command : String)
    (h : knownVerb command = false ∨ intArgMalformed command = true) :
    processCommand st ci command = (st, ci, none) := by
  rcases h with h | h
  · simp only [knownVerb, Bool.or_eq_false_iff] at h
    obtain ⟨⟨⟨⟨⟨⟨⟨h1, h2⟩, h3⟩, h4⟩, h5⟩, h6⟩, h7⟩, h8⟩ := h
    unfold processCommand
    rw [if_neg (fun he => by rw [he] at h1; simp at h1),
        if_neg (by simp [h2]), if_neg (by simp [h3]), if_neg (by simp [h4]),
        if_neg (by simp [h5]), if_neg (fun he => by rw [he] at h6; simp at h6),
        if_neg (by simp [h7]), if_neg (fun he => by rw [he] at h8; simp at h8)]
  · rw [intArgMalformed, Bool.and_eq_true] at h
    obtain ⟨hverb, hnone⟩ := h
    rw [Option.isNone_iff_eq_none] at hnone
    rw [Bool.or_eq_true, Bool.or_eq_true] at hverb
    have hping : ∀ p : String, cmdStartsWith command p = true →
        cmdStartsWith ("PING") p = false → ¬ command = "PING" := by
      intro p hp hfalse he
      rw [he, hfalse] at hp
      exact absurd hp (by simp)
    rcases hverb with (hfps | hqual) | hsens
    · unfold processCommand
      rw [if_neg (hping _ hfps (by decide)), if_pos hfps, hnone]
    · have hnf : cmdStartsWith command ("SET_FPS:") = false :=
        startsWith_disjoint hqual (by decide) (by decide)
      unfold processCommand
      rw [if_neg (hping _ hqual (by decide)), if_neg (by simp [hnf]),
          if_pos hqual, hnone]
    · have hnf : cmdStartsWith command ("SET_FPS:") = false :=
        startsWith_disjoint hsens (by decide) (by decide)
      have hnq : cmdStartsWith command ("SET_QUALITY:") = false :=
        startsWith_disjoint hsens (by decide) (by decide)
      have hnm : cmdStartsWith command ("ENABLE_MOTION:") = false :=
        startsWith_disjoint hsens (by decide) (by decide)
      have hna : cmdStartsWith command ("ENABLE_ALERTS:") = false :=
        startsWith_disjoint hsens (by decide) (by decide)
      have hmanual : ¬ command = "MANUAL_ALERT" := by
        intro he
        rw [he] at hsens
        exact absurd hsens (by decide)
      unfold processCommand
      rw [if_neg (hping _ hsens (by decide)), if_neg (by simp [hnf]),
          if_neg (by simp [hnq]), if_neg (by simp [hnm]), if_neg (by simp [hna]),
          if_neg hmanual, if_pos hsens, hnone]

/-- Witness for C8: SET_FPS with a non-integer argument changes nothing and
sends nothing. -/
theorem malformed_command_ignored_witness :
    (knownVerb ("SET_FPS:abc") = false ∨ intArgMalformed ("SET_FPS:abc") = true) ∧
    processCommand initCommandState ⟨true, true⟩ ("SET_FPS:abc") =
      (initCommandState, ⟨true, true⟩, none) :=
  ⟨Or.inr (by decide),
   malformed_command_ignored initCommandState ⟨true, true⟩ ("SET_FPS:abc")
     (Or.inr (by decide))⟩

/-! ### Broadcast and client registry (src/server1.py lines 353-362, 448-465) -/

/-- A registered client: the socket handle and remote address of the
client_info dict; equality of client_info values models Python `==` used by
`in` and `list.remove`. -/
structure ClientConn where
  sock : Nat
  address : String
deriving DecidableEq

/-- SecurityRadarServer._remove_client (src/server1.py lines 353-362): remove
the client if present (list.remove drops the first occurrence); removing an
absent client is a no-op. -/
def removeClient (clients : List ClientConn) (c : ClientConn) : List ClientConn :=
  if c ∈ clients then clients.erase c else clients

/-- SecurityRadarServer._broadcast_packet (src/server1.py lines 448-465):
iterate a snapshot `self.clients[:]`, attempt a blocking sendall to each —
`sendFails c = true` models the send to `c` raising — collect the failures in
iteration order, then remove each failed client. Returns the clients whose send
completed and the registry after the removals. -/
def broadcastPacket (sendFails : ClientConn → Bool) (clients : List ClientConn) :
    List ClientConn × List ClientConn :=
  let snapshot := clients
  let disconnected := snapshot.filter (fun c => sendFails c)
  let delivered := snapshot.filter (fun c => ! sendFails c)
  let registry := disconnected.foldl removeClient clients
  (delivered, registry)

lemma removeClient_eq_erase (clients : List ClientConn) (c : ClientConn) :
    removeClient clients c = clients.erase c := by
  unfold removeClient
  split
  · rfl
  · rw [List.erase_of_not_mem (by assumption)]

lemma mem_foldl_removeClient (l : List ClientConn) (acc : List ClientConn)
    (hacc : acc.Nodup) (c : ClientConn) :
    c ∈ l.foldl removeClient acc ↔ (c ∈ acc ∧ c ∉ l) := by
  induction l generalizing acc with
  | nil => simp
  | cons d ds ih =>
    rw [List.foldl_cons, removeClient_eq_erase]
    rw [ih (acc.erase d) (hacc.erase d)]
    rw [hacc.mem_erase_iff]
    simp only [List.mem_cons]
    constructor
    · rintro ⟨⟨hne, hm⟩, hnotin⟩
      exact ⟨hm, by rintro (rfl | hin) <;> [exact hne rfl; exact hnotin hin]⟩
    · rintro ⟨hm, hnotin⟩
      exact ⟨⟨fun he => hnotin (Or.inl he), hm⟩, fun hin => hnotin (Or.inr hin)⟩

/-- Claim C5: in one broadcast tick every registered client whose send raises
is removed from the registry (removal of an absent client being a no-op), and
every other registered client both receives the packet and stays registered —
a failing client never aborts the broadcast to the rest. -/
theorem broadcast_partial_failure_isolation (sendFails : ClientConn → Bool)
    (clients : List ClientConn) (hnd : clients.Nodup) (c : ClientConn)
    (hc : c ∈ clients) :
    (sendFails c = true → c ∉ (broadcastPacket sendFails clients).2) ∧
    (sendFails c = false → c ∈ (broadcastPacket sendFails clients).1 ∧
        c ∈ (broadcastPacket sendFails clients).2) ∧
    (∀ l d, d ∉ l → removeClient l d = l) := by
  have hreg : (broadcastPacket sendFails clients).2 =
      (clients.filter (fun x => sendFails x)).foldl removeClient clients := rfl
  have hmem := mem_foldl_removeClient (clients.filter (fun x => sendFails x))
      clients hnd c
  refine ⟨?_, ?_, ?_⟩
  · intro hf
    rw [hreg, hmem]
    rintro ⟨-, hnotin⟩
    exact hnotin (List.mem_filter.mpr ⟨hc, hf⟩)
  · intro hf
    constructor
    · show c ∈ clients.filter (fun x => ! sendFails x)
      exact List.mem_filter.mpr ⟨hc, by rw [hf]; rfl⟩
    · rw [hreg, hmem]
      refine ⟨hc, fun hin => ?_⟩
      have := (List.mem_filter.mp hin).2
      rw [hf] at this
      exact absurd this (by simp)
  · intro l d hd
    unfold removeClient
    rw [if_neg hd]

/-- Witness for C5: of two registered clients, the one whose send raises is
gone from the registry while the healthy one is delivered to and kept. -/
theorem broadcast_partial_failure_isolation_witness :
    (([⟨1, "10.0.0.1"⟩, ⟨2, "10.0.0.2"⟩] : List ClientConn).Nodup ∧
      (⟨1, "10.0.0.1"⟩ : ClientConn) ∈
        ([⟨1, "10.0.0.1"⟩, ⟨2, "10.0.0.2"⟩] : List ClientConn)) ∧
    ((fun c : ClientConn => c.sock == 1) ⟨1, "10.0.0.1"⟩ = true →
      (⟨1, "10.0.0.1"⟩ : ClientConn) ∉
        (broadcastPacket (fun c => c.sock == 1)
          [⟨1, "10.0.0.1"⟩, ⟨2, "10.0.0.2"⟩]).2) :=
  ⟨⟨by decide, by decide⟩,
   (broadcast_partial_failure_isolation (fun c => c.sock == 1)
      [⟨1, "10.0.0.1"⟩, ⟨2, "10.0.0.2"⟩] (by decide) ⟨1, "10.0.0.1"⟩ (by decide)).1⟩

/-! ### Broadcast wire framing (src/server1.py lines 448-451; client-side
decoding at src/main1.py lines 1081-1096 and json.loads at line 1115).

The JSON documents produced for broadcast packets are flat objects whose
values are strings, numeric literals and booleans.  `json.dumps` with default
options renders such an object as
`{"k1": v1, "k2": v2, ...}` with `", "` and `": "` separators, leaves
ASCII-printable string content verbatim, and — because `ensure_ascii=True` —
the output is pure ASCII, so the character count `len(json_data)` used in the
frame equals the UTF-8 byte count.  Numeric values are carried as the decimal
token Python rendered for them, since the framing round-trip does not depend
on numeric semantics. -/

/-- A JSON value of a broadcast packet: a string, a numeric literal (kept as
the rendered token), or a boolean. -/
inductive JVal where
  | s (v : String)
  | n (tok : String)
  | b (v : Bool)
deriving DecidableEq

/-- A broadcast packet dictionary: its entries in insertion order. -/
abbrev Packet := List (String × JVal)

/-- A JSON string literal without escapes (valid for the plain strings of
broadcast packets, see `plainStr`). -/
def jstrChars (v : String) : List Char := '"' :: v.data ++ ['"']

def dumpJVal : JVal → List Char
  | .s v => jstrChars v
  | .n tok => tok.data
  | .b true => ("true").data
  | .b false => ("false").data

def dumpEntry (e : String × JVal) : List Char :=
  jstrChars e.1 ++ ':' :: ' ' :: dumpJVal e.2

def dumpEntries : List (String × JVal) → List Char
  | [] => []
  | [e] => dumpEntry e
  | e :: es => dumpEntry e ++ ',' :: ' ' :: dumpEntries es

/-- `json.dumps(packet)` with the default separators. -/
def dumps (p : Packet) : List Char := '{' :: dumpEntries p ++ ['}']

/-- Decimal digits of n, most significant first (fuel-structured). -/
def natDecimalAux : Nat → Nat → List Char
  | 0, _ => []
  | fuel + 1, n =>
    if n = 0 then [] else natDecimalAux fuel (n / 10) ++ [Nat.digitChar (n % 10)]

/-- Python decimal rendering of a nonnegative length, `f"{len(json_data)}"`. -/
def natDecimal (n : Nat) : List Char :=
  if n = 0 then ['0'] else natDecimalAux (n + 1) n

/-- The framed wire message `f"{len(json_data)}|{json_data}"`
(src/server1.py line 451); `len` of a Python str counts characters, which for
this ASCII payload coincides with UTF-8 bytes. -/
def frameMsg (p : Packet) : List Char :=
  natDecimal (dumps p).length ++ '|' :: dumps p

/-- `int(size_str)` of the client decoder, restricted to the digit-only prefix
the server emits. -/
def parseNatDigits (cs : List Char) : Option Nat :=
  if cs ≠ [] ∧ cs.all (fun c => c.isDigit) then
    some (cs.foldl (fun a c => a * 10 + (c.toNat - 48)) 0)
  else none

/-- Characters that may occur in a JSON numeric literal. -/
def numChar (c : Char) : Bool :=
  c.isDigit || c == '.' || c == '-' || c == '+' || c == 'e' || c == 'E'

/-- Parse a JSON string literal (no escapes — the canonical form `dumps`
emits for plain strings). -/
def parseString (cs : List Char) : Option (String × List Char) :=
  match cs with
  | c :: rest =>
    if c = '"' then
      let body := rest.takeWhile (fun x => x != '"')
      let r2 := rest.drop body.length
      match r2 with
      | c2 :: r3 => if c2 = '"' then some (String.mk body, r3) else none
      | [] => none
    else none
  | [] => none

/-- Parse one JSON value in the canonical form `dumps` emits. -/
def parseJVal (cs : List Char) : Option (JVal × List Char) :=
  match cs with
  | [] => none
  | c :: rest =>
    if c = '"' then
      match parseString (c :: rest) with
      | some (sv, r) => some (.s sv, r)
      | none => none
    else if c = 't' then
      if rest.take 3 = ['r', 'u', 'e'] then some (.b true, rest.drop 3) else none
    else if c = 'f' then
      if rest.take 4 = ['a', 'l', 's', 'e'] then some (.b false, rest.drop 4) else none
    else if numChar c then
      let tok := (c :: rest).takeWhile numChar
      some (.n (String.mk tok), (c :: rest).drop tok.length)
    else none

/-- Parse the `"key": value` entries of an object body up to and including the
closing brace; fuel decreases once per entry. -/
def parseEntriesAux : Nat → List Char → Option (List (String × JVal) × List Char)
  | 0, _ => none
  | fuel + 1, cs =>
    match parseString cs with
    | none => none
    | some (key, r1) =>
      if r1.take 2 = [':', ' '] then
        match parseJVal (r1.drop 2) with
        | none => none
        | some (v, r3) =>
          if r3.take 2 = [',', ' '] then
            match parseEntriesAux fuel (r3.drop 2) with
            | some (es, r5) => some ((key, v) :: es, r5)
            | none => none
          else
            match r3 with
            | c3 :: r4 => if c3 = '}' then some ([(key, v)], r4) else none
            | [] => none
      else none

/-- `json.loads` restricted to the canonical one-level object form `dumps`
emits, requiring the document to be fully consumed. -/
def parseJson (cs : List Char) : Option Packet :=
  match cs with
  | c :: rest =>
    if c = '{' then
      if rest = ['}'] then some []
      else
        match parseEntriesAux (rest.length + 1) rest with
        | some (es, r) => if r = [] then some es else none
        | none => none
    else none
  | [] => none

/-- The client-side decode of one frame (src/main1.py lines 1081-1096): find
the first '|', parse the decimal prefix, take exactly that many
characters (= bytes, ASCII) after the '|', and parse them as JSON. -/
def deframe (cs : List Char) : Option Packet :=
  let pre := cs.takeWhile (fun c => c != '|')
  let rest := cs.drop (pre.length + 1)
  match parseNatDigits pre with
  | none => none
  | some n => if n ≤ rest.length then parseJson (rest.take n) else none

/-- ASCII-printable, not a quote or backslash: `json.dumps` emits such string
content verbatim. All strings of a broadcast packet (the fixed keys, the
type tag, base64 image data, zone names) are plain. -/
def plainChar (c : Char) : Bool :=
  (32 ≤ c.toNat && c.toNat < 127) && c != '"' && c != '\\'

def plainStr (v : String) : Bool := v.data.all plainChar

/-- A well-formed numeric token: nonempty and made of number characters, as
Python renders ints and floats. -/
def numTok (tok : String) : Bool := tok != "" && tok.data.all numChar

def wfJVal : JVal → Bool
  | .s v => plainStr v
  | .n tok => numTok tok
  | .b _ => true

/-- Well-formedness of a packet dictionary, satisfied by every broadcast
packet the server builds. -/
def wfPacket (p : Packet) : Bool :=
  p.all (fun e => plainStr e.1 && wfJVal e.2)

/-! ### Round-trip lemmas for the wire framing -/

lemma takeWhile_append_stop {p : Char → Bool} {xs : List Char} (y : Char) (ys : List Char)
    (hxs : ∀ c ∈ xs, p c = true) (hy : p y = false) :
    (xs ++ y :: ys).takeWhile p = xs := by
  rw [List.takeWhile_append_of_pos hxs, List.takeWhile_cons, hy]
  simp

lemma drop_append_cons {xs : List Char} (y : Char) (ys : List Char) :
    (xs ++ y :: ys).drop (xs.length + 1) = ys := by
  have h : xs ++ y :: ys = (xs ++ [y]) ++ ys := by simp
  have hlen : (xs ++ [y]).length = xs.length + 1 := by simp
  rw [h, ← hlen, List.drop_left]

lemma plainStr_ne_quote {v : String} (h : plainStr v = true) :
    ∀ c ∈ v.data, (c != '"') = true := by
  intro c hc
  rw [plainStr] at h
  have hpc := (List.all_eq_true.mp h) c hc
  rw [plainChar, Bool.and_eq_true, Bool.and_eq_true] at hpc
  exact hpc.1.2

lemma parseString_roundtrip (v : String) (hv : plainStr v = true) (r : List Char) :
    parseString (jstrChars v ++ r) = some (v, r) := by
  have hshape : jstrChars v ++ r = '"' :: (v.data ++ '"' :: r) := by
    simp [jstrChars]
  rw [hshape]
  simp only [parseString]
  rw [takeWhile_append_stop '"' r (plainStr_ne_quote hv) (by decide)]
  rw [List.drop_left]
  simp

lemma numChar_not_quote_t_f {c : Char} (hc : numChar c = true) :
    c ≠ '"' ∧ c ≠ 't' ∧ c ≠ 'f' := by
  refine ⟨?_, ?_, ?_⟩ <;> rintro rfl <;> revert hc <;> decide

lemma parseJVal_roundtrip (v : JVal) (hv : wfJVal v = true) (y : Char)
    (r : List Char) (hy : y = ',' ∨ y = '}') :
    parseJVal (dumpJVal v ++ y :: r) = some (v, y :: r) := by
  have hynum : numChar y = false := by rcases hy with rfl | rfl <;> decide
  cases v with
  | s sv =>
    have hshape : dumpJVal (JVal.s sv) ++ y :: r = '"' :: (sv.data ++ '"' :: (y :: r)) := by
      simp [dumpJVal, jstrChars]
    rw [hshape]
    simp only [parseJVal, reduceIte]
    have h2 : ('"' :: (sv.data ++ '"' :: y :: r) : List Char) = jstrChars sv ++ (y :: r) := by
      simp [jstrChars]
    rw [h2, parseString_roundtrip sv hv (y :: r)]
  | b bv =>
    cases bv with
    | true =>
      show parseJVal ('t' :: ('r' :: 'u' :: 'e' :: (y :: r))) = some (JVal.b true, y :: r)
      simp [parseJVal, List.take, List.drop]
    | false =>
      show parseJVal ('f' :: ('a' :: 'l' :: 's' :: 'e' :: (y :: r)))
          = some (JVal.b false, y :: r)
      simp [parseJVal, List.take, List.drop]
  | n tok =>
    rw [wfJVal, numTok, Bool.and_eq_true] at hv
    obtain ⟨hne, hall⟩ := hv
    have hall2 : ∀ c ∈ tok.data, numChar c = true := List.all_eq_true.mp hall
    obtain ⟨c, cs, hcs⟩ : ∃ c cs, tok.data = c :: cs := by
      cases hd : tok.data with
      | nil =>
        exfalso
        apply absurd hne
        simp only [bne_iff_ne, ne_eq, not_not]
        cases tok
        simp_all
      | cons c cs => exact ⟨c, cs, rfl⟩
    have hcnum : numChar c = true := hall2 c (by rw [hcs]; exact List.mem_cons_self c cs)
    obtain ⟨hq, ht, hf⟩ := numChar_not_quote_t_f hcnum
    have hshape : dumpJVal (JVal.n tok) ++ y :: r = c :: (cs ++ y :: r) := by
      simp [dumpJVal, hcs]
    rw [hshape]
    simp only [parseJVal]
    rw [if_neg hq, if_neg ht, if_neg hf, if_pos hcnum]
    have htw : (c :: (cs ++ y :: r)).takeWhile numChar = c :: cs := by
      rw [show c :: (cs ++ y :: r) = (c :: cs) ++ y :: r from rfl]
      exact takeWhile_append_stop y r
        (fun x hx => hall2 x (by rw [hcs]; exact hx)) hynum
    rw [htw]
    have hdl : (c :: (cs ++ y :: r)).drop (c :: cs).length = y :: r := by
      rw [show c :: (cs ++ y :: r) = (c :: cs) ++ y :: r from rfl]
      exact List.drop_left (c :: cs) (y :: r)
    rw [hdl]
    have : String.mk (c :: cs) = tok := by
      rw [← hcs]
    rw [this]

lemma dumpEntry_shape (e : String × JVal) (tail : List Char) :
    dumpEntry e ++ tail = jstrChars e.1 ++ (':' :: ' ' :: (dumpJVal e.2 ++ tail)) := by
  simp [dumpEntry]

lemma parseEntriesAux_roundtrip :
    ∀ (es : List (String × JVal)) (fuel : Nat), es ≠ [] → es.length ≤ fuel →
    (∀ e ∈ es, plainStr e.1 = true ∧ wfJVal e.2 = true) → ∀ r : List Char,
    parseEntriesAux fuel (dumpEntries es ++ '}' :: r) = some (es, r) := by
  intro es
  induction es with
  | nil => intro fuel h; exact absurd rfl h
  | cons e tail ih =>
    intro fuel hne hlen hwf r
    obtain ⟨hkey, hval⟩ := hwf e (List.mem_cons_self e tail)
    cases fuel with
    | zero =>
      exfalso
      simp only [List.length_cons] at hlen
      omega
    | succ fuel2 =>
      cases tail with
      | nil =>
        show parseEntriesAux (fuel2 + 1) (dumpEntry e ++ '}' :: r) = some ([e], r)
        rw [dumpEntry_shape]
        simp only [parseEntriesAux]
        rw [parseString_roundtrip e.1 hkey _]
        dsimp only
        have ht2 : (':' :: ' ' :: (dumpJVal e.2 ++ '}' :: r)).take 2 = [':', ' '] := rfl
        have hd2 : (':' :: ' ' :: (dumpJVal e.2 ++ '}' :: r)).drop 2
            = dumpJVal e.2 ++ '}' :: r := rfl
        rw [ht2, if_pos rfl, hd2]
        rw [parseJVal_roundtrip e.2 hval '}' r (Or.inr rfl)]
        dsimp only
        have hnc : ¬ (('}' :: r).take 2 = [',', ' ']) := by
          cases r <;> simp [List.take]
        rw [if_neg hnc]
        simp
      | cons e2 tail2 =>
        show parseEntriesAux (fuel2 + 1)
            ((dumpEntry e ++ ',' :: ' ' :: dumpEntries (e2 :: tail2)) ++ '}' :: r)
            = some (e :: e2 :: tail2, r)
        have hassoc : (dumpEntry e ++ ',' :: ' ' :: dumpEntries (e2 :: tail2)) ++ '}' :: r
            = dumpEntry e ++ ',' :: ' ' :: (dumpEntries (e2 :: tail2) ++ '}' :: r) := by
          simp
        rw [hassoc, dumpEntry_shape]
        simp only [parseEntriesAux]
        rw [parseString_roundtrip e.1 hkey _]
        dsimp only
        have ht2 : (':' :: ' ' :: (dumpJVal e.2 ++
            ',' :: ' ' :: (dumpEntries (e2 :: tail2) ++ '}' :: r))).take 2 = [':', ' '] := rfl
        have hd2 : (':' :: ' ' :: (dumpJVal e.2 ++
            ',' :: ' ' :: (dumpEntries (e2 :: tail2) ++ '}' :: r))).drop 2
            = dumpJVal e.2 ++ ',' :: ' ' :: (dumpEntries (e2 :: tail2) ++ '}' :: r) := rfl
        rw [ht2, if_pos rfl, hd2]
        rw [parseJVal_roundtrip e.2 hval ','
            (' ' :: (dumpEntries (e2 :: tail2) ++ '}' :: r)) (Or.inl rfl)]
        dsimp only
        have hc2 : ((',' :: ' ' :: (dumpEntries (e2 :: tail2) ++ '}' :: r)) :
            List Char).take 2 = [',', ' '] := rfl
        have hcd : ((',' :: ' ' :: (dumpEntries (e2 :: tail2) ++ '}' :: r)) :
            List Char).drop 2 = dumpEntries (e2 :: tail2) ++ '}' :: r := rfl
        rw [hc2, if_pos rfl, hcd]
        rw [ih fuel2 (by simp) (by simp only [List.length_cons] at hlen ⊢; omega)
            (fun x hx => hwf x (List.mem_cons_of_mem e hx)) r]

lemma dumpEntries_cons_head (e : String × JVal) (es : List (String × JVal)) :
    ∃ t, dumpEntries (e :: es) = '"' :: t := by
  cases es with
  | nil =>
    refine ⟨e.1.data ++ ['"'] ++ ':' :: ' ' :: dumpJVal e.2, ?_⟩
    show dumpEntry e = _
    simp [dumpEntry, jstrChars]
  | cons e2 es2 =>
    refine ⟨e.1.data ++ ['"'] ++ ':' :: ' ' :: dumpJVal e.2 ++
        ',' :: ' ' :: dumpEntries (e2 :: es2), ?_⟩
    show dumpEntry e ++ ',' :: ' ' :: dumpEntries (e2 :: es2) = _
    simp [dumpEntry, jstrChars]

lemma dumpEntries_len : ∀ es : List (String × JVal), es.length ≤ (dumpEntries es).length := by
  intro es
  induction es with
  | nil => simp [dumpEntries]
  | cons e tail ih =>
    have h1 : 2 ≤ (dumpEntry e).length := by
      simp [dumpEntry, jstrChars]
      omega
    cases tail with
    | nil =>
      show (1 : Nat) ≤ (dumpEntry e).length
      omega
    | cons e2 t2 =>
      show (e :: e2 :: t2).length ≤ (dumpEntry e ++ ',' :: ' ' :: dumpEntries (e2 :: t2)).length
      simp only [List.length_cons, List.length_append] at ih ⊢
      omega

lemma parseJson_roundtrip (p : Packet)
    (hwf : ∀ e ∈ p, plainStr e.1 = true ∧ wfJVal e.2 = true) :
    parseJson (dumps p) = some p := by
  cases p with
  | nil => rfl
  | cons e es =>
    obtain ⟨t, ht⟩ := dumpEntries_cons_head e es
    show parseJson ('{' :: (dumpEntries (e :: es) ++ ['}'])) = some (e :: es)
    simp only [parseJson]
    rw [if_pos trivial]
    have hne : ¬ (dumpEntries (e :: es) ++ ['}'] = ['}']) := by
      rw [ht]
      simp
    rw [if_neg hne]
    rw [parseEntriesAux_roundtrip (e :: es) ((dumpEntries (e :: es) ++ ['}']).length + 1)
        (by simp) ?_ hwf []]
    · simp
    · have hlen := dumpEntries_len (e :: es)
      simp only [List.length_append, List.length_cons, List.length_nil] at hlen ⊢
      omega

lemma digitChar_isDigit {k : Nat} (h : k < 10) : (Nat.digitChar k).isDigit = true := by
  interval_cases k <;> decide

lemma digitChar_toNat {k : Nat} (h : k < 10) : (Nat.digitChar k).toNat = k + 48 := by
  interval_cases k <;> decide

lemma natDecimalAux_spec : ∀ fuel n, n < fuel →
    (∀ c ∈ natDecimalAux fuel n, c.isDigit = true) ∧
    (∀ a : Nat, (natDecimalAux fuel n).foldl (fun x c => x * 10 + (c.toNat - 48)) a
        = a * 10 ^ (natDecimalAux fuel n).length + n) := by
  intro fuel
  induction fuel with
  | zero => intro n h; exact absurd h (by omega)
  | succ f ih =>
    intro n hn
    by_cases h0 : n = 0
    · subst h0
      constructor
      · intro c hc
        simp [natDecimalAux] at hc
      · intro a
        simp [natDecimalAux]
    · obtain ⟨hd, hf⟩ := ih (n / 10) (by omega)
      have hstep : natDecimalAux (f + 1) n
          = natDecimalAux f (n / 10) ++ [Nat.digitChar (n % 10)] := by
        simp [natDecimalAux, h0]
      have hm : n % 10 < 10 := by omega
      constructor
      · intro c hc
        rw [hstep] at hc
        rcases List.mem_append.mp hc with hc1 | hc2
        · exact hd c hc1
        · rw [List.mem_singleton] at hc2
          subst hc2
          exact digitChar_isDigit hm
      · intro a
        rw [hstep, List.foldl_append]
        simp only [List.foldl_cons, List.foldl_nil]
        rw [hf a, digitChar_toNat hm]
        simp only [List.length_append, List.length_cons, List.length_nil]
        have hmod : n % 10 + 48 - 48 = n % 10 := by omega
        have hdm : n / 10 * 10 + n % 10 = n := by omega
        rw [hmod, pow_succ]
        generalize (10 : ℕ) ^ (natDecimalAux f (n / 10)).length = P
        have hr : (a * P + n / 10) * 10 + n % 10 = a * (P * 10) + (n / 10 * 10 + n % 10) := by
          ring
        rw [hr, hdm]

lemma natDecimal_digits (n : Nat) : ∀ c ∈ natDecimal n, c.isDigit = true := by
  intro c hc
  unfold natDecimal at hc
  by_cases h0 : n = 0
  · rw [if_pos h0] at hc
    rw [List.mem_singleton] at hc
    subst hc
    decide
  · rw [if_neg h0] at hc
    exact (natDecimalAux_spec (n + 1) n (by omega)).1 c hc

lemma parseNatDigits_natDecimal (n : Nat) : parseNatDigits (natDecimal n) = some n := by
  by_cases h0 : n = 0
  · subst h0
    rfl
  · obtain ⟨hd, hf⟩ := natDecimalAux_spec (n + 1) n (by omega)
    have hne : natDecimalAux (n + 1) n ≠ [] := by
      simp [natDecimalAux, h0]
    unfold natDecimal parseNatDigits
    rw [if_neg h0, if_pos ⟨hne, List.all_eq_true.mpr (fun c hc => hd c hc)⟩]
    rw [hf 0]
    simp

lemma isDigit_ascii {c : Char} (h : c.isDigit = true) : c.toNat < 128 := by
  simp [Char.isDigit] at h
  have h3 : c.val.toNat ≤ (57 : UInt32).toNat := h.2
  have h57 : (57 : UInt32).toNat = 57 := rfl
  rw [h57] at h3
  show c.val.toNat < 128
  omega

lemma numChar_ascii {c : Char} (h : numChar c = true) : c.toNat < 128 := by
  rw [numChar] at h
  simp only [Bool.or_eq_true, beq_iff_eq] at h
  rcases h with ((((hd | rfl) | rfl) | rfl) | rfl) | rfl
  · exact isDigit_ascii hd
  all_goals decide

lemma plainChar_ascii {c : Char} (h : plainChar c = true) : c.toNat < 128 := by
  rw [plainChar] at h
  simp only [Bool.and_eq_true, decide_eq_true_eq] at h
  omega

lemma dumpJVal_ascii {v : JVal} (hv : wfJVal v = true) :
    ∀ c ∈ dumpJVal v, c.toNat < 128 := by
  intro c hc
  cases v with
  | s sv =>
    simp only [dumpJVal, jstrChars] at hc
    rcases List.mem_cons.mp hc with rfl | hc2
    · decide
    rcases List.mem_append.mp hc2 with h3 | h4
    · have hp : sv.data.all plainChar = true := hv
      exact plainChar_ascii ((List.all_eq_true.mp hp) c h3)
    · rw [List.mem_singleton] at h4
      subst h4
      decide
  | n tok =>
    have hn : numTok tok = true := hv
    rw [numTok, Bool.and_eq_true] at hn
    have hc2 : c ∈ tok.data := hc
    exact numChar_ascii ((List.all_eq_true.mp hn.2) c hc2)
  | b bv =>
    cases bv with
    | true =>
      have hc2 : c ∈ ['t', 'r', 'u', 'e'] := hc
      fin_cases hc2 <;> decide
    | false =>
      have hc2 : c ∈ ['f', 'a', 'l', 's', 'e'] := hc
      fin_cases hc2 <;> decide

lemma dumpEntry_ascii {e : String × JVal} (hk : plainStr e.1 = true)
    (hv : wfJVal e.2 = true) : ∀ c ∈ dumpEntry e, c.toNat < 128 := by
  intro c hc
  simp only [dumpEntry, jstrChars] at hc
  rcases List.mem_append.mp hc with hA | hB
  · rcases List.mem_cons.mp hA with rfl | hA2
    · decide
    rcases List.mem_append.mp hA2 with hA3 | hA4
    · have hp : e.1.data.all plainChar = true := hk
      exact plainChar_ascii ((List.all_eq_true.mp hp) c hA3)
    · rw [List.mem_singleton] at hA4
      subst hA4
      decide
  · rcases List.mem_cons.mp hB with rfl | hB2
    · decide
    rcases List.mem_cons.mp hB2 with rfl | hB3
    · decide
    · exact dumpJVal_ascii hv c hB3

lemma dumpEntries_ascii : ∀ es : List (String × JVal),
    (∀ e ∈ es, plainStr e.1 = true ∧ wfJVal e.2 = true) →
    ∀ c ∈ dumpEntries es, c.toNat < 128 := by
  intro es
  induction es with
  | nil =>
    intro _ c hc
    simp [dumpEntries] at hc
  | cons e tail ih =>
    intro hwf c hc
    obtain ⟨hk, hv⟩ := hwf e (List.mem_cons_self e tail)
    cases tail with
    | nil => exact dumpEntry_ascii hk hv c hc
    | cons e2 t2 =>
      have hc2 : c ∈ dumpEntry e ++ ',' :: ' ' :: dumpEntries (e2 :: t2) := hc
      rcases List.mem_append.mp hc2 with h1 | h2
      · exact dumpEntry_ascii hk hv c h1
      rcases List.mem_cons.mp h2 with rfl | h3
      · decide
      rcases List.mem_cons.mp h3 with rfl | h4
      · decide
      · exact ih (fun x hx => hwf x (List.mem_cons_of_mem e hx)) c h4

lemma dumps_ascii (p : Packet)
    (hwf : ∀ e ∈ p, plainStr e.1 = true ∧ wfJVal e.2 = true) :
    ∀ c ∈ dumps p, c.toNat < 128 := by
  intro c hc
  simp only [dumps] at hc
  rcases List.mem_cons.mp hc with rfl | hc2
  · decide
  rcases List.mem_append.mp hc2 with h1 | h2
  · exact dumpEntries_ascii p hwf c h1
  · rw [List.mem_singleton] at h2
    subst h2
    decide

/-- Claim C4: for every (well-formed) broadcast packet dictionary, the wire
message is the decimal character length, the byte '|', then exactly that many
characters of the packet's JSON document; decoding that many characters after
the '|' and parsing them as JSON reconstructs the original dictionary, and the
whole message is ASCII, so its character count equals its UTF-8 byte count
(json.dumps with ensure_ascii=True emits pure ASCII). -/
theorem broadcast_framing_roundtrip (p : Packet) (h : wfPacket p = true) :
    deframe (frameMsg p) = some p ∧ (∀ c ∈ frameMsg p, c.toNat < 128) := by
  have hwf : ∀ e ∈ p, plainStr e.1 = true ∧ wfJVal e.2 = true := by
    intro e he
    have hall : p.all (fun e => plainStr e.1 && wfJVal e.2) = true := h
    have hb := (List.all_eq_true.mp hall) e he
    rw [Bool.and_eq_true] at hb
    exact hb
  constructor
  · simp only [deframe, frameMsg]
    have hdig := natDecimal_digits (dumps p).length
    have hpre : ((natDecimal (dumps p).length ++ '|' :: dumps p).takeWhile
        (fun c => c != '|')) = natDecimal (dumps p).length := by
      apply takeWhile_append_stop
      · intro c hc
        have hd := hdig c hc
        simp only [bne_iff_ne, ne_eq]
        rintro rfl
        exact absurd hd (by decide)
      · decide
    rw [hpre, drop_append_cons, parseNatDigits_natDecimal]
    dsimp only
    rw [if_pos (le_refl _), List.take_length]
    exact parseJson_roundtrip p hwf
  · intro c hc
    simp only [frameMsg] at hc
    rcases List.mem_append.mp hc with h1 | h2
    · exact isDigit_ascii (natDecimal_digits (dumps p).length c h1)
    rcases List.mem_cons.mp h2 with rfl | h3
    · decide
    · exact dumps_ascii p hwf c h3

/-- Witness for C4 on a concrete broadcast packet with the schema of
src/server1.py lines 403-413. -/
theorem broadcast_framing_roundtrip_witness :
    (wfPacket
      [("type", JVal.s ("screen_frame")), ("timestamp", JVal.n ("1700000000.25")),
       ("width", JVal.n ("1280")), ("height", JVal.n ("720")),
       ("data", JVal.s ("aGVsbG8=")), ("motion_detected", JVal.b false),
       ("motion_percentage", JVal.n ("0.0")), ("threat_level", JVal.n ("0")),
       ("zone", JVal.s ("Unknown"))] = true) ∧
    (deframe (frameMsg
      [("type", JVal.s ("screen_frame")), ("timestamp", JVal.n ("1700000000.25")),
       ("width", JVal.n ("1280")), ("height", JVal.n ("720")),
       ("data", JVal.s ("aGVsbG8=")), ("motion_detected", JVal.b false),
       ("motion_percentage", JVal.n ("0.0")), ("threat_level", JVal.n ("0")),
       ("zone", JVal.s ("Unknown"))]) = some
      [("type", JVal.s ("screen_frame")), ("timestamp", JVal.n ("1700000000.25")),
       ("width", JVal.n ("1280")), ("height", JVal.n ("720")),
       ("data", JVal.s ("aGVsbG8=")), ("motion_detected", JVal.b false),
       ("motion_percentage", JVal.n ("0.0")), ("threat_level", JVal.n ("0")),
       ("zone", JVal.s ("Unknown"))] ∧
     (∀ c ∈ frameMsg
      [("type", JVal.s ("screen_frame")), ("timestamp", JVal.n ("1700000000.25")),
       ("width", JVal.n ("1280")), ("height", JVal.n ("720")),
       ("data", JVal.s ("aGVsbG8=")), ("motion_detected", JVal.b false),
       ("motion_percentage", JVal.n ("0.0")), ("threat_level", JVal.n ("0")),
       ("zone", JVal.s ("Unknown"))], c.toNat < 128)) :=
  ⟨by decide, broadcast_framing_roundtrip _ (by decide)⟩

end SecurityRadar
